import Mathlib

/-!
Verification of the knutKnutRealEstate data pipeline.

The development shallowly embeds the cleaning pipeline
(scripts/dataClean.py), the line-oriented cleaning and outlier scripts
(scripts/clean_houses.py, scripts/dom_outliers.py) and the feature
encoder / linear predictor (kkd_dashboard.py).

Modelling conventions:
  - Python strings are Lean strings; operations such as str.lower and
    str.strip are modelled on the underlying character list (the ASCII
    fragment of the Unicode behaviour, which is all the pipeline uses).
  - pandas cells are values of an inductive type with a missing marker
    (NaN), a string alternative and a rational number alternative;
    floats are modelled exactly by rationals.
  - a DataFrame row is an association list from column name to cell;
    the embedded validator assumes the batch carries the full column
    schema, so every `col in df.columns` guard of the source holds and
    an absent key is the same as a NaN cell.
-/

/-! ### Python string primitives -/

/-- ASCII lowercasing of one character, as Python str.lower acts on the
ASCII range: code points 65..90 are shifted by 32, all else unchanged. -/
def pyLowerChar (c : Char) : Char :=
  if 65 ≤ c.toNat ∧ c.toNat ≤ 90 then Char.ofNat (c.toNat + 32) else c

/-- Model of Python str.lower (ASCII fragment). -/
def pyLower (s : String) : String :=
  ⟨s.data.map pyLowerChar⟩

/-- Both-ends whitespace removal on a character list. -/
def pyStripList (l : List Char) : List Char :=
  ((l.dropWhile Char.isWhitespace).reverse.dropWhile Char.isWhitespace).reverse

/-- Model of Python str.strip (no argument): remove leading and trailing
whitespace. -/
def pyStrip (s : String) : String :=
  ⟨pyStripList s.data⟩

theorem toNat_ofNat_valid (n : Nat) (h : n < 55296) : (Char.ofNat n).toNat = n := by
  unfold Char.ofNat
  rw [dif_pos (Or.inl h)]
  rfl

theorem pyLowerChar_idem (c : Char) : pyLowerChar (pyLowerChar c) = pyLowerChar c := by
  unfold pyLowerChar
  split
  · next h =>
    rw [if_neg]
    rw [toNat_ofNat_valid _ (by omega)]
    omega
  · rfl

theorem pyLower_idem (s : String) : pyLower (pyLower s) = pyLower s := by
  unfold pyLower
  cases s with
  | mk d =>
    simp only [List.map_map]
    congr 1
    induction d with
    | nil => rfl
    | cons c cs ih => simp [pyLowerChar_idem, ih]

theorem dropWhile_idem {α : Type} (p : α → Bool) (l : List α) :
    (l.dropWhile p).dropWhile p = l.dropWhile p := by
  induction l with
  | nil => rfl
  | cons x xs ih =>
    by_cases h : p x = true
    · simp [List.dropWhile_cons, h, ih]
    · simp [List.dropWhile_cons, h]

theorem pyStripList_idem (l : List Char) :
    pyStripList (pyStripList l) = pyStripList l := by
  unfold pyStripList
  have h1 : ((((l.dropWhile Char.isWhitespace).reverse.dropWhile
      Char.isWhitespace).reverse).dropWhile Char.isWhitespace) =
      ((l.dropWhile Char.isWhitespace).reverse.dropWhile Char.isWhitespace).reverse := by
    cases hrev : ((l.dropWhile Char.isWhitespace).reverse.dropWhile
        Char.isWhitespace).reverse with
    | nil => rfl
    | cons x t =>
      have hsuff : (l.dropWhile Char.isWhitespace).reverse.dropWhile Char.isWhitespace <:+
          (l.dropWhile Char.isWhitespace).reverse := List.dropWhile_suffix _
      obtain ⟨s, hs⟩ := hsuff
      have hA : l.dropWhile Char.isWhitespace =
          ((l.dropWhile Char.isWhitespace).reverse.dropWhile Char.isWhitespace).reverse ++
            s.reverse := by
        have := congrArg List.reverse hs
        simpa using this.symm
      rw [hrev] at hA
      have hx : Char.isWhitespace x = false := by
        have hh := List.head?_dropWhile_not Char.isWhitespace l
        rw [hA] at hh
        simpa using hh
      simp [List.dropWhile_cons, hx]
  rw [h1, List.reverse_reverse, dropWhile_idem]

theorem pyStrip_idem (s : String) : pyStrip (pyStrip s) = pyStrip s := by
  unfold pyStrip
  exact congrArg String.mk (pyStripList_idem s.data)

/-- Splitting a character list on a separator character, as Python
str.split with one-character separator (used to parse decimal points). -/
def splitOnChar (sep : Char) : List Char → List (List Char)
  | [] => [[]]
  | c :: rest =>
    let r := splitOnChar sep rest
    if c == sep then [] :: r
    else
      match r with
      | h :: t => (c :: h) :: t
      | [] => [[c]]

/-- Numeric value of a digit character. -/
def digitVal (c : Char) : Nat := c.toNat - 48

/-- Value of a digit string read left to right. -/
def natOfDigits (l : List Char) : Nat :=
  l.foldl (fun a c => a * 10 + digitVal c) 0

/-- Model of lenient numeric parsing (pandas.to_numeric on a string,
Python float on a string): an optional sign followed by a decimal
numeral with an optional fractional part. Exponent forms and the
special tokens inf and nan are not produced by this repository's data
and are omitted. -/
def parseNumeric (s : String) : Option ℚ :=
  let (sign, l) : ℚ × List Char :=
    match s.data with
    | '-' :: rest => (-1, rest)
    | '+' :: rest => (1, rest)
    | l => (1, l)
  match splitOnChar '.' l with
  | [ip] =>
    if ip ≠ [] ∧ ip.all Char.isDigit then some (sign * natOfDigits ip) else none
  | [ip, fp] =>
    if (ip ≠ [] ∨ fp ≠ []) ∧ ip.all Char.isDigit ∧ fp.all Char.isDigit then
      some (sign * ((natOfDigits ip : ℚ) + (natOfDigits fp : ℚ) / (10 : ℚ) ^ fp.length))
    else none
  | _ => none

unseal Rat.add Rat.mul Rat.sub Rat.inv

instance {ε α : Type} [DecidableEq ε] [DecidableEq α] : DecidableEq (Except ε α) :=
  fun x y =>
    match x, y with
    | .ok a, .ok b =>
      if h : a = b then isTrue (by rw [h]) else isFalse (fun hh => h (Except.ok.inj hh))
    | .error e, .error f =>
      if h : e = f then isTrue (by rw [h]) else isFalse (fun hh => h (Except.error.inj hh))
    | .ok _, .error _ => isFalse (fun hh => Except.noConfusion hh)
    | .error _, .ok _ => isFalse (fun hh => Except.noConfusion hh)

example : parseNumeric "100" = some 100 := by decide
example : parseNumeric "-2.5" = some (-(5/2)) := by decide
example : parseNumeric "n/a" = none := by decide
example : parseNumeric "" = none := by decide

/-! ### scripts/dataClean.py : cell values and records -/

/-- A pandas cell: the NaN missing marker, a string, or a number
(floats are modelled exactly by rationals). -/
inductive Value where
  | missing : Value
  | str : String → Value
  | num : ℚ → Value
deriving DecidableEq

/-- A row of the houses DataFrame: an association list from column name
to cell. The embedded batch carries the full column schema, so an
absent key behaves as a NaN cell (see getCell). -/
abbrev Record := List (String × Value)

/-- dataClean.NUMERIC_COLUMNS. -/
def NUMERIC_COLUMNS : List String :=
  ["price", "size", "bathrooms", "kitchens", "storage_rating", "condition_rating",
   "days_on_marked", "sun_factor", "lot_w", "external_storage_m2", "year", "remodeled"]

/-- dataClean.REQUIRED_COLUMNS. -/
def REQUIRED_COLUMNS : List String := ["price", "size", "year"]

/-- Columns cast to integer at the end of clean_data (line 71). -/
def INT_COLUMNS : List String :=
  ["bathrooms", "kitchens", "storage_rating", "condition_rating", "year",
   "remodeled", "lot_w", "external_storage_m2"]

/-- clean_data line 16: every column name is lowercased. -/
def lowerKeys (r : Record) : Record :=
  r.map (fun kv => (pyLower kv.1, kv.2))

def hasKey (r : Record) (k : String) : Bool :=
  r.any (fun kv => kv.1 == k)

/-- clean_data lines 19-20: rename the typo column sold_in_moth to
sold_in_month when the canonical name is absent. -/
def renameTypoKeys (r : Record) : Record :=
  if hasKey r "sold_in_moth" && !(hasKey r "sold_in_month") then
    r.map (fun kv => (if kv.1 == "sold_in_moth" then "sold_in_month" else kv.1, kv.2))
  else r

/-- clean_data lines 23-24: strip whitespace from string cells (the
object-dtype columns). -/
def stripCell : Value → Value
  | .str s => .str (pyStrip s)
  | v => v

/-- clean_data line 27: the placeholder tokens replaced by NaN. -/
def PLACEHOLDERS : List String := ["", "unknown", "None", "nan"]

def replaceCell : Value → Value
  | .str s => if s ∈ PLACEHOLDERS then .missing else .str s
  | v => v

/-- clean_data lines 30-32: pandas.to_numeric with errors="coerce" on
one cell of a numeric column. -/
def coerceCell (k : String) (v : Value) : Value :=
  if k ∈ NUMERIC_COLUMNS then
    match v with
    | .num q => .num q
    | .str s =>
      match parseNumeric s with
      | some q => .num q
      | none => .missing
    | .missing => .missing
  else v

/-- The Record Normalizer: clean_data lines 16-27 applied to one row. -/
def normalizeRecord (r : Record) : Record :=
  (((renameTypoKeys (lowerKeys r)).map (fun kv => (kv.1, stripCell kv.2))).map
    (fun kv => (kv.1, replaceCell kv.2)))

/-- The Numeric Coercer: clean_data lines 30-32 applied to one row. -/
def coerceRecord (r : Record) : Record :=
  r.map (fun kv => (kv.1, coerceCell kv.1 kv.2))

/-- Normalizer followed by Coercer (clean_data lines 16-32). -/
def normalizeCoerce (r : Record) : Record :=
  coerceRecord (normalizeRecord r)

/-- Cell of a row at a column; an absent key is a NaN cell. -/
def getCell (r : Record) (k : String) : Value :=
  (List.lookup k r).getD .missing

/-! ### scripts/dataClean.py : the Business-Rule Validator

Each drop rule of clean_data lines 34-68 becomes a Bool-valued check on
one row; a row is kept by a filter `df = df[mask]` exactly when its
check is true. pandas semantics that the embedding reproduces:
  - a comparison (one of less-equal, less, greater-equal, greater)
    against NaN is False, so a filter such as `df[df["sun_factor"] >= 0]`
    drops rows whose cell is missing;
  - `astype(str)` renders a NaN cell as the three-character string
    "nan", so `df["sold_in_month"].astype(str).str.len() > 0` holds for
    a missing cell;
  - `.str.lower()` yields NaN on a non-string cell, and `NaN == "no"`
    is False.
The duplicate-row drop (line 40) relates distinct rows of a batch and
does not act on a single row, so it is not part of the per-row checks;
no claim mentions it. -/

/-- Lines 35-37: dropna on the required columns keeps a row iff no
required cell is NaN. -/
def requiredOk (r : Record) : Bool :=
  REQUIRED_COLUMNS.all (fun k => getCell r k != Value.missing)

/-- The mask term `df["sold"].str.lower() == "no"` for one row. -/
def soldIsNoMask (r : Record) : Bool :=
  match getCell r "sold" with
  | .str s => pyLower s == "no"
  | _ => false

def soldIsYesMask (r : Record) : Bool :=
  match getCell r "sold" with
  | .str s => pyLower s == "yes"
  | _ => false

/-- The mask term `astype(str).str.len() > 0` for one cell: NaN prints
as "nan" (length 3) and a number prints as a nonempty numeral, so only
a genuinely empty string fails it. -/
def astypeStrNonempty : Value → Bool
  | .missing => true
  | .str s => decide (0 < s.length)
  | .num _ => true

/-- Line 44: sold == "no" while sold_in_month stringifies nonempty. -/
def inconsistentMask (r : Record) : Bool :=
  soldIsNoMask r && astypeStrNonempty (getCell r "sold_in_month")

/-- Line 49: sold == "yes" while sold_in_month stringifies empty. -/
def missingMonthMask (r : Record) : Bool :=
  soldIsYesMask r && !(astypeStrNonempty (getCell r "sold_in_month"))

/-- A `cell >= 0` numeric filter (lines 54, 64, 66, 68). -/
def colNonneg (r : Record) (k : String) : Bool :=
  match getCell r k with
  | .num q => decide (0 ≤ q)
  | _ => false

/-- Line 56: size > 0. -/
def sizePos (r : Record) : Bool :=
  match getCell r "size" with
  | .num q => decide (0 < q)
  | _ => false

/-- Line 58: 1800 <= year <= CURRENT_YEAR. -/
def yearOk (currentYear : ℤ) (r : Record) : Bool :=
  match getCell r "year" with
  | .num q => decide (1800 ≤ q ∧ q ≤ (currentYear : ℚ))
  | _ => false

/-- Line 60: remodeled >= year and remodeled <= CURRENT_YEAR. -/
def remodeledOk (currentYear : ℤ) (r : Record) : Bool :=
  match getCell r "remodeled", getCell r "year" with
  | .num rq, .num yq => decide (yq ≤ rq ∧ rq ≤ (currentYear : ℚ))
  | _, _ => false

/-- Line 62: 0 <= sun_factor <= 1. -/
def sunFactorOk (r : Record) : Bool :=
  match getCell r "sun_factor" with
  | .num q => decide (0 ≤ q ∧ q ≤ 1)
  | _ => false

/-- The group of range rules on the optional fields (lines 59-68). -/
def rangeRulesPass (currentYear : ℤ) (r : Record) : Bool :=
  remodeledOk currentYear r && sunFactorOk r && colNonneg r "days_on_marked" &&
    colNonneg r "bathrooms" && colNonneg r "kitchens"

/-- One row survives every drop rule of clean_data lines 34-68. -/
def passesFilters (currentYear : ℤ) (r : Record) : Bool :=
  requiredOk r && !(inconsistentMask r) && !(missingMonthMask r) &&
    colNonneg r "price" && sizePos r && yearOk currentYear r &&
    rangeRulesPass currentYear r

/-- Every drop rule except the year-range rule of line 58. -/
def passesFiltersExceptYear (currentYear : ℤ) (r : Record) : Bool :=
  requiredOk r && !(inconsistentMask r) && !(missingMonthMask r) &&
    colNonneg r "price" && sizePos r &&
    rangeRulesPass currentYear r

/-- numpy float-to-int conversion truncates toward zero. -/
def castTowardZero (q : ℚ) : ℤ :=
  if 0 ≤ q then ⌊q⌋ else ⌈q⌉

def castCellInt : Value → Value
  | .num q => .num ((castTowardZero q : ℤ) : ℚ)
  | v => v

/-- clean_data lines 71-74: `df[col].astype(int)` over the integer-like
columns. pandas raises IntCastingNaNError when a cell of such a column
is NaN, so the step fails on any surviving row with a missing
integer-like field. -/
def castIntCols (r : Record) : Except String Record :=
  if INT_COLUMNS.all (fun k => getCell r k != Value.missing) then
    .ok (r.map (fun kv => if kv.1 ∈ INT_COLUMNS then (kv.1, castCellInt kv.2) else kv))
  else
    .error "IntCastingNaNError: Cannot convert non-finite values (NA or inf) to integer"

/-! ### Concrete rows used to evaluate the validator -/

/-- A fully populated coerced row that satisfies every validator rule. -/
def recClean : Record :=
  [("price", .num 1000000), ("size", .num 50), ("year", .num 2000),
   ("remodeled", .num 2010), ("sun_factor", .num (1/2)), ("days_on_marked", .num 10),
   ("bathrooms", .num 1), ("kitchens", .num 1), ("storage_rating", .num 3),
   ("condition_rating", .num 4), ("lot_w", .num 10), ("external_storage_m2", .num 2),
   ("sold", .str "yes"), ("sold_in_month", .str "june"),
   ("agent_id", .str "6c5ec2f26798484fb1031a7a31c08d73"), ("rooms", .str "3 rooms")]

example : passesFilters 2025 recClean = true := by decide
example : castIntCols recClean =
    .ok [("price", .num 1000000), ("size", .num 50), ("year", .num 2000),
      ("remodeled", .num 2010), ("sun_factor", .num (1/2)), ("days_on_marked", .num 10),
      ("bathrooms", .num 1), ("kitchens", .num 1), ("storage_rating", .num 3),
      ("condition_rating", .num 4), ("lot_w", .num 10), ("external_storage_m2", .num 2),
      ("sold", .str "yes"), ("sold_in_month", .str "june"),
      ("agent_id", .str "6c5ec2f26798484fb1031a7a31c08d73"), ("rooms", .str "3 rooms")] := by
  decide

/-- recClean with sold == "no" and sold_in_month missing. -/
def recNoMissingMonth : Record :=
  [("price", .num 1000000), ("size", .num 50), ("year", .num 2000),
   ("remodeled", .num 2010), ("sun_factor", .num (1/2)), ("days_on_marked", .num 10),
   ("bathrooms", .num 1), ("kitchens", .num 1), ("storage_rating", .num 3),
   ("condition_rating", .num 4), ("lot_w", .num 10), ("external_storage_m2", .num 2),
   ("sold", .str "no"), ("sold_in_month", .missing),
   ("agent_id", .str "6c5ec2f26798484fb1031a7a31c08d73"), ("rooms", .str "3 rooms")]

/-- recClean with sold == "yes" and sold_in_month missing. -/
def recYesMissingMonth : Record :=
  [("price", .num 1000000), ("size", .num 50), ("year", .num 2000),
   ("remodeled", .num 2010), ("sun_factor", .num (1/2)), ("days_on_marked", .num 10),
   ("bathrooms", .num 1), ("kitchens", .num 1), ("storage_rating", .num 3),
   ("condition_rating", .num 4), ("lot_w", .num 10), ("external_storage_m2", .num 2),
   ("sold", .str "yes"), ("sold_in_month", .missing),
   ("agent_id", .str "6c5ec2f26798484fb1031a7a31c08d73"), ("rooms", .str "3 rooms")]

/-- C1. The sold/sold_in_month rules of clean_data (lines 42-50) do not
drop exactly the inconsistent combinations, contradicting the comments
above those lines: `astype(str)` renders a missing sold_in_month as the
nonempty string "nan", so the line-44 mask also drops a row with
sold == "no" and sold_in_month missing, while the line-49 mask is never
true on a missing month and the sold == "yes" / missing-month row
survives every filter. -/
theorem c1_sold_month_rules_bug :
    inconsistentMask recNoMissingMonth = true ∧
    getCell recNoMissingMonth "sold_in_month" = .missing ∧
    missingMonthMask recYesMissingMonth = false ∧
    inconsistentMask recYesMissingMonth = false ∧
    passesFilters 2025 recYesMissingMonth = true := by
  decide

/-- recClean with sun_factor missing; every one of the five optional
range-rule fields except sun_factor is present and in range. -/
def recSunMissing : Record :=
  [("price", .num 1000000), ("size", .num 50), ("year", .num 2000),
   ("remodeled", .num 2010), ("sun_factor", .missing), ("days_on_marked", .num 10),
   ("bathrooms", .num 1), ("kitchens", .num 1), ("storage_rating", .num 3),
   ("condition_rating", .num 4), ("lot_w", .num 10), ("external_storage_m2", .num 2),
   ("sold", .str "yes"), ("sold_in_month", .str "june"),
   ("agent_id", .str "6c5ec2f26798484fb1031a7a31c08d73"), ("rooms", .str "3 rooms")]

/-- C2, counterexample. The claim states a row in which one of the
optional range-rule fields is missing is never dropped by the range
rules; but `df[df["sun_factor"] >= 0]` drops a NaN sun_factor row, so
recSunMissing is dropped although all its other optional fields are
present and valid. -/
theorem c2_range_rules_counterexample :
    getCell recSunMissing "sun_factor" = .missing ∧
    remodeledOk 2025 recSunMissing = true ∧
    colNonneg recSunMissing "days_on_marked" = true ∧
    colNonneg recSunMissing "bathrooms" = true ∧
    colNonneg recSunMissing "kitchens" = true ∧
    rangeRulesPass 2025 recSunMissing = false ∧
    passesFilters 2025 recSunMissing = false := by
  decide

theorem colNonneg_iff (r : Record) (k : String) :
    colNonneg r k = true ↔ ∃ q, getCell r k = .num q ∧ 0 ≤ q := by
  cases h : getCell r k <;> simp [colNonneg, h]

theorem sunFactorOk_iff (r : Record) :
    sunFactorOk r = true ↔ ∃ q, getCell r "sun_factor" = .num q ∧ 0 ≤ q ∧ q ≤ 1 := by
  cases h : getCell r "sun_factor" <;> simp [sunFactorOk, h]

theorem remodeledOk_iff (currentYear : ℤ) (r : Record) :
    remodeledOk currentYear r = true ↔
      ∃ rq yq, getCell r "remodeled" = .num rq ∧ getCell r "year" = .num yq ∧
        yq ≤ rq ∧ rq ≤ (currentYear : ℚ) := by
  cases h1 : getCell r "remodeled" <;> cases h2 : getCell r "year" <;>
    simp [remodeledOk, h1, h2]

/-- C2, amended. The range rules on the optional fields keep a row only
when each governed field is present and in range: a row is dropped as
soon as remodeled is missing or violates remodeled >= year and
remodeled <= current_year, or sun_factor is missing or outside [0, 1],
or days_on_marked, bathrooms or kitchens is missing or negative,
because a pandas comparison against NaN is False. -/
theorem c2_range_rules_amended (currentYear : ℤ) (r : Record) :
    rangeRulesPass currentYear r = true ↔
      ((∃ rq yq, getCell r "remodeled" = .num rq ∧ getCell r "year" = .num yq ∧
          yq ≤ rq ∧ rq ≤ (currentYear : ℚ)) ∧
       (∃ q, getCell r "sun_factor" = .num q ∧ 0 ≤ q ∧ q ≤ 1) ∧
       (∃ q, getCell r "days_on_marked" = .num q ∧ 0 ≤ q) ∧
       (∃ q, getCell r "bathrooms" = .num q ∧ 0 ≤ q) ∧
       (∃ q, getCell r "kitchens" = .num q ∧ 0 ≤ q)) := by
  unfold rangeRulesPass
  rw [Bool.and_eq_true, Bool.and_eq_true, Bool.and_eq_true, Bool.and_eq_true]
  rw [colNonneg_iff, colNonneg_iff, colNonneg_iff, sunFactorOk_iff, remodeledOk_iff]
  tauto

/-- recClean with storage_rating missing: it survives every drop rule
(storage_rating is not filtered) and reaches the integer-cast step. -/
def recStorageMissing : Record :=
  [("price", .num 1000000), ("size", .num 50), ("year", .num 2000),
   ("remodeled", .num 2010), ("sun_factor", .num (1/2)), ("days_on_marked", .num 10),
   ("bathrooms", .num 1), ("kitchens", .num 1), ("storage_rating", .missing),
   ("condition_rating", .num 4), ("lot_w", .num 10), ("external_storage_m2", .num 2),
   ("sold", .str "yes"), ("sold_in_month", .str "june"),
   ("agent_id", .str "6c5ec2f26798484fb1031a7a31c08d73"), ("rooms", .str "3 rooms")]

/-- C3. The integer-cast step of clean_data (lines 70-74) does not keep
the missing marker for surviving rows with a missing integer-like
field: `df[col].astype(int)` raises IntCastingNaNError on a NaN cell,
contradicting the comment "Only cast if values are not NaN" directly
above the cast. recStorageMissing survives all drop rules yet the cast
step fails instead of retaining the marker. -/
theorem c3_int_cast_bug :
    passesFilters 2025 recStorageMissing = true ∧
    getCell recStorageMissing "storage_rating" = .missing ∧
    castIntCols recStorageMissing =
      .error "IntCastingNaNError: Cannot convert non-finite values (NA or inf) to integer" := by
  decide

theorem bool_and_extract_sixth (a b c d e f g : Bool) :
    (a && b && c && d && e && f && g) = ((a && b && c && d && e && g) && f) := by
  cases a <;> cases b <;> cases c <;> cases d <;> cases e <;> cases f <;> cases g <;> rfl

theorem passesFilters_decompose (currentYear : ℤ) (r : Record) :
    passesFilters currentYear r =
      (passesFiltersExceptYear currentYear r && yearOk currentYear r) := by
  unfold passesFilters passesFiltersExceptYear
  exact bool_and_extract_sixth _ _ _ _ _ _ _

theorem yearOk_iff (currentYear : ℤ) (r : Record) :
    yearOk currentYear r = true ↔
      ∃ q, getCell r "year" = .num q ∧ 1800 ≤ q ∧ q ≤ (currentYear : ℚ) := by
  cases h : getCell r "year" <;> simp [yearOk, h]

/-- C7. For a coerced row passing every drop rule except possibly the
year-range rule, the row survives the validator filters exactly when
1800 <= year <= current_year; in particular year = 1799 and
year = current_year + 1 are dropped. -/
theorem c7_year_range (currentYear : ℤ) (r : Record)
    (h : passesFiltersExceptYear currentYear r = true) :
    (passesFilters currentYear r = true ↔
      ∃ q, getCell r "year" = .num q ∧ 1800 ≤ q ∧ q ≤ (currentYear : ℚ)) ∧
    (getCell r "year" = .num 1799 → passesFilters currentYear r = false) ∧
    (getCell r "year" = .num ((currentYear : ℚ) + 1) →
      passesFilters currentYear r = false) := by
  rw [passesFilters_decompose, h, Bool.true_and]
  refine ⟨yearOk_iff currentYear r, ?_, ?_⟩
  · intro hy
    simp only [yearOk, hy, decide_eq_false_iff_not]
    rintro ⟨h1, -⟩
    norm_num at h1
  · intro hy
    simp only [yearOk, hy, decide_eq_false_iff_not]
    rintro ⟨-, h2⟩
    linarith

/-- recClean with year 1799 (remodeled 2010 still satisfies
remodeled >= year, so every non-year rule passes). -/
def recYear1799 : Record :=
  [("price", .num 1000000), ("size", .num 50), ("year", .num 1799),
   ("remodeled", .num 2010), ("sun_factor", .num (1/2)), ("days_on_marked", .num 10),
   ("bathrooms", .num 1), ("kitchens", .num 1), ("storage_rating", .num 3),
   ("condition_rating", .num 4), ("lot_w", .num 10), ("external_storage_m2", .num 2),
   ("sold", .str "yes"), ("sold_in_month", .str "june"),
   ("agent_id", .str "6c5ec2f26798484fb1031a7a31c08d73"), ("rooms", .str "3 rooms")]

/-- Witness for C7: recYear1799 passes every rule but the year range,
and the validator drops it. -/
theorem c7_year_range_witness :
    passesFiltersExceptYear 2025 recYear1799 = true ∧
    passesFilters 2025 recYear1799 = false :=
  ⟨by decide, (c7_year_range 2025 recYear1799 (by decide)).2.1 (by decide)⟩

/-! ### C8: idempotence of the Normalizer + Coercer -/

/-- The per-cell effect of clean_data lines 22-32 on a cell stored
under column name k: strip, placeholder replacement, numeric coercion. -/
def cellStep (k : String) (v : Value) : Value :=
  coerceCell k (replaceCell (stripCell v))

theorem map_eq_self_of {α : Type} (l : List α) (f : α → α) (h : ∀ x ∈ l, f x = x) :
    l.map f = l := by
  induction l with
  | nil => rfl
  | cons x xs ih =>
    simp only [List.map_cons, List.cons.injEq]
    exact ⟨h x (by simp), ih (fun y hy => h y (by simp [hy]))⟩

theorem normalizeCoerce_eq (r : Record) :
    normalizeCoerce r =
      (renameTypoKeys (lowerKeys r)).map (fun kv => (kv.1, cellStep kv.1 kv.2)) := by
  unfold normalizeCoerce coerceRecord normalizeRecord cellStep
  simp only [List.map_map]
  rfl

theorem cellStep_idem (k : String) (v : Value) :
    cellStep k (cellStep k v) = cellStep k v := by
  have hmiss : cellStep k Value.missing = Value.missing := by
    by_cases hk : k ∈ NUMERIC_COLUMNS <;>
      simp [cellStep, stripCell, replaceCell, coerceCell, hk]
  have hnum : ∀ q : ℚ, cellStep k (Value.num q) = Value.num q := by
    intro q
    by_cases hk : k ∈ NUMERIC_COLUMNS <;>
      simp [cellStep, stripCell, replaceCell, coerceCell, hk]
  cases v with
  | missing => rw [hmiss, hmiss]
  | num q => rw [hnum, hnum]
  | str s =>
    have hstr : ∀ t : String,
        cellStep k (Value.str t) = coerceCell k (replaceCell (Value.str (pyStrip t))) :=
      fun t => rfl
    by_cases hp : pyStrip s ∈ PLACEHOLDERS
    · have h1 : cellStep k (Value.str s) = Value.missing := by
        rw [hstr]
        simp only [replaceCell, if_pos hp]
        by_cases hk : k ∈ NUMERIC_COLUMNS <;> simp [coerceCell, hk]
      rw [h1]
      exact hmiss
    · by_cases hk : k ∈ NUMERIC_COLUMNS
      · cases hpar : parseNumeric (pyStrip s) with
        | none =>
          have h1 : cellStep k (Value.str s) = Value.missing := by
            rw [hstr]
            simp only [replaceCell, if_neg hp]
            simp [coerceCell, hk, hpar]
          rw [h1]
          exact hmiss
        | some q =>
          have h1 : cellStep k (Value.str s) = Value.num q := by
            rw [hstr]
            simp only [replaceCell, if_neg hp]
            simp [coerceCell, hk, hpar]
          rw [h1]
          exact hnum q
      · have h1 : cellStep k (Value.str s) = Value.str (pyStrip s) := by
          rw [hstr]
          simp only [replaceCell, if_neg hp]
          simp [coerceCell, hk]
        rw [h1, hstr, pyStrip_idem]
        simp only [replaceCell, if_neg hp]
        simp [coerceCell, hk]

theorem keys_lowered (r : Record) :
    ∀ kv ∈ renameTypoKeys (lowerKeys r), pyLower kv.1 = kv.1 := by
  intro kv hkv
  have hbase : ∀ kv2 ∈ lowerKeys r, pyLower kv2.1 = kv2.1 := by
    intro kv2 hkv2
    obtain ⟨kv3, _, rfl⟩ := List.mem_map.mp hkv2
    exact pyLower_idem kv3.1
  unfold renameTypoKeys at hkv
  split at hkv
  · obtain ⟨kv1, h1, rfl⟩ := List.mem_map.mp hkv
    by_cases hb : kv1.1 == "sold_in_moth"
    · simp only [hb, if_true]
      decide
    · simp only [Bool.not_eq_true] at hb
      simp only [hb, Bool.false_eq_true, if_false]
      exact hbase kv1 h1
  · exact hbase kv hkv

theorem hasKey_map_step (l : Record) (f : String → Value → Value) (k : String) :
    hasKey (l.map (fun kv => (kv.1, f kv.1 kv.2))) k = hasKey l k := by
  unfold hasKey
  rw [List.any_map]
  rfl

theorem rename_guard_false (r : Record) :
    (hasKey (renameTypoKeys (lowerKeys r)) "sold_in_moth" &&
      !(hasKey (renameTypoKeys (lowerKeys r)) "sold_in_month")) = false := by
  unfold renameTypoKeys
  split
  · next hguard =>
    have hmoth : hasKey (lowerKeys r) "sold_in_moth" = true := by
      rcases Bool.and_eq_true_iff.mp hguard with ⟨h1, -⟩
      exact h1
    obtain ⟨kv, hmem, hbeq⟩ := List.any_eq_true.mp hmoth
    have hmonth :
        hasKey ((lowerKeys r).map
          (fun kv => (if kv.1 == "sold_in_moth" then "sold_in_month" else kv.1, kv.2)))
          "sold_in_month" = true := by
      apply List.any_eq_true.mpr
      refine ⟨(if kv.1 == "sold_in_moth" then "sold_in_month" else kv.1, kv.2), ?_, ?_⟩
      · exact List.mem_map.mpr ⟨kv, hmem, rfl⟩
      · simp [hbeq]
    rw [hmonth]
    simp
  · next hguard =>
    simpa using hguard

theorem renameTypoKeys_fix (l : Record)
    (h : (hasKey l "sold_in_moth" && !(hasKey l "sold_in_month")) = false) :
    renameTypoKeys l = l := by
  unfold renameTypoKeys
  simp [h]

/-- C8. The Normalizer + Coercer stage (clean_data lines 16-32) is
idempotent: applied to its own output it returns the output unchanged,
for every row. -/
theorem c8_normalize_coerce_idempotent (r : Record) :
    normalizeCoerce (normalizeCoerce r) = normalizeCoerce r := by
  have hmain := normalizeCoerce_eq r
  have hkeys : ∀ kv ∈ normalizeCoerce r, pyLower kv.1 = kv.1 := by
    intro kv hkv
    rw [hmain] at hkv
    obtain ⟨kv0, hkv0, rfl⟩ := List.mem_map.mp hkv
    exact keys_lowered r kv0 hkv0
  have hlow : lowerKeys (normalizeCoerce r) = normalizeCoerce r := by
    unfold lowerKeys
    apply map_eq_self_of
    intro kv hkv
    cases kv with
    | mk k v => simpa using hkeys (k, v) hkv
  have hguard : (hasKey (normalizeCoerce r) "sold_in_moth" &&
      !(hasKey (normalizeCoerce r) "sold_in_month")) = false := by
    rw [hmain, hasKey_map_step, hasKey_map_step]
    exact rename_guard_false r
  have hren : renameTypoKeys (normalizeCoerce r) = normalizeCoerce r :=
    renameTypoKeys_fix _ hguard
  rw [normalizeCoerce_eq (normalizeCoerce r), hlow, hren]
  apply map_eq_self_of
  intro kv hkv
  rw [hmain] at hkv
  obtain ⟨kv0, hkv0, rfl⟩ := List.mem_map.mp hkv
  simp only [cellStep_idem]

/-! ### kkd_dashboard.py : category maps, feature encoder, predictor -/

/-- Lexicographic comparison of code-point lists: Python string
less-or-equal. -/
def lexLe : List Nat → List Nat → Bool
  | [], _ => true
  | _ :: _, [] => false
  | a :: as, b :: bs => if a < b then true else if b < a then false else lexLe as bs

def strLe (a b : String) : Bool :=
  lexLe (a.data.map Char.toNat) (b.data.map Char.toNat)

/-- Python sorted() on a list of strings: ascending lexicographic by
code point. -/
def sortStrings (l : List String) : List String :=
  List.insertionSort (fun a b => strLe a b = true) l

/-- The index map built by a dict comprehension over enumerate(...). -/
def enumIdx : Nat → List String → List (String × Nat)
  | _, [] => []
  | i, m :: rest => (m, i) :: enumIdx (i + 1) rest

/-- kkd_dashboard.MONTHS, in source order. -/
def MONTHS : List String :=
  ["jan", "feb", "march", "april", "may", "june",
   "july", "august", "september", "october", "november", "december"]

/-- kkd_dashboard.AGENT_IDS, in source order. -/
def AGENT_IDS : List String :=
  ["6c5ec2f26798484fb1031a7a31c08d73", "3a547da007e04cbdb8ed7e36a5920ab5",
   "795dc3219c4548de8a06babe17e5312c", "8e6475f796cd425cafc497e1a5c9474f",
   "32b554b9e556415b9c1a5f429cb86ea4", "19a0b5650c4d43619cbaeeac9cc7a20a",
   "efef30ab07cd407a88aa48c424d5171a", "b07e66765f334ca9970aaee99cffc5a8",
   "fff5808fd1564d4fafd32ae748479a2c", "c4a0f434295d4e4e972b2512823d6c4a",
   "d2bd04c4a79d409d8d692ca8eea96c7a", "f80b78e84ee54bdd9aff519346ba2f19",
   "4ecaa44743f145529c682799a4ff7100", "5f0b7975f5bc42cd8a46f8c2cc0a7bc8",
   "9656ed14d6ea47fd84503af7e1be3e4e", "48589954489f46239de57d1846b9c79b",
   "cb7d8976bd0a4c98826b3344ac18cdea", "ebb2ffc4234b40ebb7bf9bdd9c92ad98",
   "63f3d4cadbf944dca0e586711d33a70f", "defb7dd2db4845baa9e94f9a38000913",
   "ef141ba69bf94741aa575623c7abc6d8", "fc8bd0d643b94de58c36d221f27b6f66",
   "36e5c7e1c1a5478287fc3c4ad91bc72c", "90ac6055bfd045adaf501fad965c6ea3"]

/-- price_category_maps["sold_in_month"]: month name to index in the
sorted month list. -/
def monthIndexMap : List (String × Nat) := enumIdx 0 (sortStrings MONTHS)

/-- price_category_maps["agent_id"]: agent identifier to index in the
sorted agent list. -/
def agentIndexMap : List (String × Nat) := enumIdx 0 (sortStrings AGENT_IDS)

/-- create_feature_vector (kkd_dashboard lines 81-107): standardize
[size, external_storage, lot_w] with the scaler mean/std, build the
12-slot month one-hot and 24-slot agent one-hot, concatenate. A failed
dictionary lookup is the Python KeyError. -/
def create_feature_vector (mean std : List ℚ) (size external_storage lot_w : ℚ)
    (sold_month agent_id : String) : Except String (List ℚ) :=
  let numeric : List ℚ := [size, external_storage, lot_w]
  let numeric_scaled := List.zipWith (fun x ms => (x - ms.1) / ms.2) numeric (mean.zip std)
  match List.lookup sold_month monthIndexMap with
  | none => .error ("KeyError: " ++ sold_month)
  | some month_idx =>
    match List.lookup agent_id agentIndexMap with
    | none => .error ("KeyError: " ++ agent_id)
    | some agent_idx =>
      let month_oh := (List.replicate monthIndexMap.length (0:ℚ)).set month_idx 1
      let agent_oh := (List.replicate agentIndexMap.length (0:ℚ)).set agent_idx 1
      .ok (numeric_scaled ++ month_oh ++ agent_oh)

/-- np.dot of two vectors of equal length (both are length 39 wherever
the dashboard calls it). -/
def dot (xs theta : List ℚ) : ℚ :=
  (List.zipWith (· * ·) xs theta).sum

/-- predict (kkd_dashboard lines 112-115): log_price is the dot product
plus bias, and np.expm1 inverts the log1p transform. -/
noncomputable def predict (theta : List ℚ) (xs : List ℚ) (bias : ℚ) : ℝ :=
  Real.exp (((dot xs theta + bias : ℚ) : ℝ)) - 1

/-- predict_price_model (kkd_dashboard lines 117-119). -/
noncomputable def predict_price_model (theta : List ℚ) (bias : ℚ) (mean std : List ℚ)
    (size external_storage lot_w : ℚ) (sold_month agent_id : String) : Except String ℝ :=
  (create_feature_vector mean std size external_storage lot_w sold_month agent_id).map
    (fun xs => predict theta xs bias)

set_option maxRecDepth 100000 in
/-- C4. The Linear Predictor returns exp(dot(xs, theta) + bias) - 1,
and on the spec model (mean zero, std one, weights zero except
index 0 = 1, bias 0) with size 5 and the first sorted month and agent,
the predicted price is exp(5) - 1. -/
theorem c4_linear_predictor :
    (∀ (theta xs : List ℚ) (bias : ℚ),
      predict theta xs bias = Real.exp (((dot xs theta + bias : ℚ) : ℝ)) - 1) ∧
    predict_price_model ((List.replicate 39 (0:ℚ)).set 0 1) 0 [0, 0, 0] [1, 1, 1] 5 0 0
      "april" "19a0b5650c4d43619cbaeeac9cc7a20a" = .ok (Real.exp 5 - 1) := by
  refine ⟨fun _ _ _ => rfl, ?_⟩
  have hv : create_feature_vector [0, 0, 0] [1, 1, 1] 5 0 0
      "april" "19a0b5650c4d43619cbaeeac9cc7a20a" =
      .ok ([5, 0, 0] ++ ((List.replicate 12 (0:ℚ)).set 0 1) ++
        ((List.replicate 24 (0:ℚ)).set 0 1)) := by
    decide
  have hd : (dot ([5, 0, 0] ++ ((List.replicate 12 (0:ℚ)).set 0 1) ++
      ((List.replicate 24 (0:ℚ)).set 0 1)) ((List.replicate 39 (0:ℚ)).set 0 1) + 0 : ℚ)
      = 5 := by decide
  have hp : predict ((List.replicate 39 (0:ℚ)).set 0 1)
      ([5, 0, 0] ++ ((List.replicate 12 (0:ℚ)).set 0 1) ++
        ((List.replicate 24 (0:ℚ)).set 0 1)) 0 = Real.exp 5 - 1 := by
    unfold predict
    rw [hd]
    norm_num
  unfold predict_price_model
  rw [hv]
  simp only [Except.map, hp]

theorem take_append_length {α : Type} (l₁ l₂ : List α) (n : Nat) (h : l₁.length = n) :
    (l₁ ++ l₂).take n = l₁ := by
  subst h
  exact List.take_left _ _

theorem drop_append_length {α : Type} (l₁ l₂ : List α) (n : Nat) (h : l₁.length = n) :
    (l₁ ++ l₂).drop n = l₂ := by
  subst h
  exact List.drop_left _ _

theorem lookup_enumIdx_of_mem (m : String) (l : List String) :
    ∀ n : Nat, m ∈ l → ∃ i, List.lookup m (enumIdx n l) = some i ∧ i < n + l.length := by
  induction l with
  | nil => intro n h; cases h
  | cons x xs ih =>
    intro n hm
    by_cases hx : m = x
    · subst hx
      refine ⟨n, ?_, by simp⟩
      simp [enumIdx, List.lookup]
    · have hm2 : m ∈ xs := by
        rcases List.mem_cons.mp hm with h | h
        · exact absurd h hx
        · exact h
      obtain ⟨i, hi, hlt⟩ := ih (n + 1) hm2
      refine ⟨i, ?_, by simp only [List.length_cons]; omega⟩
      have hbeq : (m == x) = false := beq_eq_false_iff_ne.mpr hx
      simp [enumIdx, List.lookup, hbeq, hi]

theorem lookup_enumIdx_of_not_mem (m : String) (l : List String) :
    ∀ n : Nat, m ∉ l → List.lookup m (enumIdx n l) = none := by
  induction l with
  | nil => intro n _; rfl
  | cons x xs ih =>
    intro n hm
    have hx : m ≠ x := fun h => hm (h ▸ List.mem_cons_self x xs)
    have hbeq : (m == x) = false := beq_eq_false_iff_ne.mpr hx
    have hm2 : m ∉ xs := fun h => hm (List.mem_cons_of_mem x h)
    simp [enumIdx, List.lookup, hbeq, ih (n + 1) hm2]

theorem mem_sortStrings {m : String} {l : List String} :
    m ∈ sortStrings l ↔ m ∈ l :=
  (List.perm_insertionSort (fun a b => strLe a b = true) l).mem_iff

/-- A one-hot list of the source shape `[0] * n` followed by
`oh[i] = 1`, in explicit append form. -/
theorem set_replicate_oneHot :
    ∀ (i n : Nat), i < n →
      (List.replicate n (0:ℚ)).set i 1 =
        List.replicate i 0 ++ 1 :: List.replicate (n - i - 1) 0 := by
  intro i
  induction i with
  | zero =>
    intro n h
    cases n with
    | zero => omega
    | succ m => simp [List.replicate_succ]
  | succ j ih =>
    intro n h
    cases n with
    | zero => omega
    | succ m =>
      have hm : j < m := by omega
      have harith : m + 1 - (j + 1) - 1 = m - j - 1 := by omega
      simp only [List.replicate_succ, List.set]
      rw [ih m hm, harith]
      rfl

theorem count_oneHot (i k : Nat) :
    (List.replicate i (0:ℚ) ++ 1 :: List.replicate k 0).count 1 = 1 := by
  simp [List.count_append, List.count_replicate, List.count_cons]

theorem mem_oneHot (i k : Nat) :
    ∀ x ∈ List.replicate i (0:ℚ) ++ 1 :: List.replicate k 0, x = 1 ∨ x = 0 := by
  intro x hx
  rcases List.mem_append.mp hx with h | h
  · exact Or.inr (List.eq_of_mem_replicate h)
  · rcases List.mem_cons.mp h with h | h
    · exact Or.inl h
    · exact Or.inr (List.eq_of_mem_replicate h)

theorem findIdx?_cons_of_false {α : Type} (p : α → Bool) (x : α) (l : List α) (i : Nat)
    (h : p x = false) : List.findIdx? p (x :: l) i = List.findIdx? p l (i + 1) := by
  simp [List.findIdx?, h]

theorem findIdx?_oneHot :
    ∀ (i k j : Nat),
      List.findIdx? (fun x => x == (1:ℚ)) (List.replicate i 0 ++ 1 :: List.replicate k 0) j =
        some (j + i) := by
  intro i
  induction i with
  | zero =>
    intro k j
    simp [List.findIdx?]
  | succ m ih =>
    intro k j
    rw [List.replicate_succ, List.cons_append,
      findIdx?_cons_of_false (fun x => x == (1:ℚ)) 0 _ _ (by decide), ih k (j + 1)]
    congr 1
    omega

/-- C5. On recognized categories the Feature Encoder returns the
39-dimensional concatenation of the 3 standardized numerics, the
12-slot month one-hot and the 24-slot agent one-hot; each one-hot block
holds exactly one 1, at the sorted-alphabetical index of the category,
and 0 elsewhere, and scanning for the 1 recovers that index exactly. -/
theorem c5_one_hot_roundtrip (mean std : List ℚ) (hmean : mean.length = 3)
    (hstd : std.length = 3) (size external_storage lot_w : ℚ) (month agent : String)
    (hm : month ∈ MONTHS) (ha : agent ∈ AGENT_IDS) :
    ∃ v i j,
      create_feature_vector mean std size external_storage lot_w month agent = .ok v ∧
      List.lookup month monthIndexMap = some i ∧
      List.lookup agent agentIndexMap = some j ∧
      v.length = 39 ∧
      (v.drop 3).take 12 = (List.replicate 12 (0:ℚ)).set i 1 ∧
      v.drop 15 = (List.replicate 24 (0:ℚ)).set j 1 ∧
      ((v.drop 3).take 12).count 1 = 1 ∧
      (v.drop 15).count 1 = 1 ∧
      (∀ x ∈ (v.drop 3).take 12, x = 1 ∨ x = 0) ∧
      (∀ x ∈ v.drop 15, x = 1 ∨ x = 0) ∧
      List.findIdx? (fun x => x == (1:ℚ)) ((v.drop 3).take 12) = some i ∧
      List.findIdx? (fun x => x == (1:ℚ)) (v.drop 15) = some j := by
  obtain ⟨i, hi, hilt⟩ :=
    lookup_enumIdx_of_mem month (sortStrings MONTHS) 0 (mem_sortStrings.mpr hm)
  obtain ⟨j, hj, hjlt⟩ :=
    lookup_enumIdx_of_mem agent (sortStrings AGENT_IDS) 0 (mem_sortStrings.mpr ha)
  have hlen12 : (sortStrings MONTHS).length = 12 := by decide
  have hlen24 : (sortStrings AGENT_IDS).length = 24 := by decide
  rw [hlen12] at hilt
  rw [hlen24] at hjlt
  have hi12 : i < 12 := by omega
  have hj24 : j < 24 := by omega
  have hi' : List.lookup month monthIndexMap = some i := hi
  have hj' : List.lookup agent agentIndexMap = some j := hj
  have hm12 : monthIndexMap.length = 12 := by decide
  have hm24 : agentIndexMap.length = 24 := by decide
  have hslen :
      (List.zipWith (fun x ms => (x - ms.1) / ms.2) [size, external_storage, lot_w]
        (mean.zip std)).length = 3 := by
    simp [List.length_zipWith, List.length_zip, hmean, hstd]
  have hcfv : create_feature_vector mean std size external_storage lot_w month agent =
      .ok ((List.zipWith (fun x ms => (x - ms.1) / ms.2) [size, external_storage, lot_w]
          (mean.zip std)) ++
        ((List.replicate 12 (0:ℚ)).set i 1) ++ ((List.replicate 24 (0:ℚ)).set j 1)) := by
    unfold create_feature_vector
    rw [hi', hj', hm12, hm24]
  have hmohlen : ((List.replicate 12 (0:ℚ)).set i 1).length = 12 := by
    rw [List.length_set, List.length_replicate]
  have haohlen : ((List.replicate 24 (0:ℚ)).set j 1).length = 24 := by
    rw [List.length_set, List.length_replicate]
  have hdrop3 :
      (((List.zipWith (fun x ms => (x - ms.1) / ms.2) [size, external_storage, lot_w]
          (mean.zip std)) ++
        ((List.replicate 12 (0:ℚ)).set i 1) ++ ((List.replicate 24 (0:ℚ)).set j 1)).drop 3) =
      ((List.replicate 12 (0:ℚ)).set i 1) ++ ((List.replicate 24 (0:ℚ)).set j 1) := by
    rw [List.append_assoc]
    exact drop_append_length _ _ _ hslen
  have htake12 :
      ((((List.replicate 12 (0:ℚ)).set i 1) ++ ((List.replicate 24 (0:ℚ)).set j 1)).take 12) =
      (List.replicate 12 (0:ℚ)).set i 1 := by
    exact take_append_length _ _ _ hmohlen
  have hdrop15 :
      (((List.zipWith (fun x ms => (x - ms.1) / ms.2) [size, external_storage, lot_w]
          (mean.zip std)) ++
        ((List.replicate 12 (0:ℚ)).set i 1) ++ ((List.replicate 24 (0:ℚ)).set j 1)).drop 15) =
      (List.replicate 24 (0:ℚ)).set j 1 := by
    have h15 : ((List.zipWith (fun x ms => (x - ms.1) / ms.2) [size, external_storage, lot_w]
        (mean.zip std)) ++ ((List.replicate 12 (0:ℚ)).set i 1)).length = 15 := by
      rw [List.length_append, hslen, hmohlen]
    exact drop_append_length _ _ _ h15
  have hmoh := set_replicate_oneHot i 12 hi12
  have haoh := set_replicate_oneHot j 24 hj24
  refine ⟨_, i, j, hcfv, hi', hj', ?_, ?_, ?_, ?_, ?_, ?_, ?_, ?_, ?_⟩
  · rw [List.length_append, List.length_append, hslen, hmohlen, haohlen]
  · rw [hdrop3, htake12]
  · exact hdrop15
  · rw [hdrop3, htake12, hmoh]
    exact count_oneHot i (12 - i - 1)
  · rw [hdrop15, haoh]
    exact count_oneHot j (24 - j - 1)
  · rw [hdrop3, htake12, hmoh]
    exact mem_oneHot i (12 - i - 1)
  · rw [hdrop15, haoh]
    exact mem_oneHot j (24 - j - 1)
  · rw [hdrop3, htake12, hmoh, findIdx?_oneHot i (12 - i - 1) 0]
    rw [Nat.zero_add]
  · rw [hdrop15, haoh, findIdx?_oneHot j (24 - j - 1) 0]
    rw [Nat.zero_add]

/-- Witness for C5 at a concrete recognized month and agent. -/
theorem c5_one_hot_roundtrip_witness :
    ("june" ∈ MONTHS) ∧ ("6c5ec2f26798484fb1031a7a31c08d73" ∈ AGENT_IDS) ∧
    (∃ v i j,
      create_feature_vector [0, 0, 0] [1, 1, 1] 1 2 3
        "june" "6c5ec2f26798484fb1031a7a31c08d73" = .ok v ∧
      List.lookup "june" monthIndexMap = some i ∧
      List.lookup "6c5ec2f26798484fb1031a7a31c08d73" agentIndexMap = some j ∧
      v.length = 39 ∧
      (v.drop 3).take 12 = (List.replicate 12 (0:ℚ)).set i 1 ∧
      v.drop 15 = (List.replicate 24 (0:ℚ)).set j 1 ∧
      ((v.drop 3).take 12).count 1 = 1 ∧
      (v.drop 15).count 1 = 1 ∧
      (∀ x ∈ (v.drop 3).take 12, x = 1 ∨ x = 0) ∧
      (∀ x ∈ v.drop 15, x = 1 ∨ x = 0) ∧
      List.findIdx? (fun x => x == (1:ℚ)) ((v.drop 3).take 12) = some i ∧
      List.findIdx? (fun x => x == (1:ℚ)) (v.drop 15) = some j) :=
  ⟨by decide, by decide,
    c5_one_hot_roundtrip [0, 0, 0] [1, 1, 1] rfl rfl 1 2 3
      "june" "6c5ec2f26798484fb1031a7a31c08d73" (by decide) (by decide)⟩

/-- C6. On an unrecognized month or agent the Feature Encoder raises
the dictionary KeyError and returns no vector. -/
theorem c6_unknown_category_error (mean std : List ℚ)
    (size external_storage lot_w : ℚ) (month agent : String)
    (h : month ∉ MONTHS ∨ agent ∉ AGENT_IDS) :
    ∃ e, create_feature_vector mean std size external_storage lot_w month agent =
      .error e := by
  by_cases hm : month ∈ MONTHS
  · have ha : agent ∉ AGENT_IDS := h.resolve_left (not_not_intro hm)
    obtain ⟨i, hi, -⟩ :=
      lookup_enumIdx_of_mem month (sortStrings MONTHS) 0 (mem_sortStrings.mpr hm)
    have hi' : List.lookup month monthIndexMap = some i := hi
    have hj' : List.lookup agent agentIndexMap = none :=
      lookup_enumIdx_of_not_mem agent (sortStrings AGENT_IDS) 0
        (fun hmem => ha (mem_sortStrings.mp hmem))
    refine ⟨"KeyError: " ++ agent, ?_⟩
    unfold create_feature_vector
    rw [hi', hj']
  · have hi' : List.lookup month monthIndexMap = none :=
      lookup_enumIdx_of_not_mem month (sortStrings MONTHS) 0
        (fun hmem => hm (mem_sortStrings.mp hmem))
    refine ⟨"KeyError: " ++ month, ?_⟩
    unfold create_feature_vector
    rw [hi']

/-- Witness for C6 at a concrete unrecognized month. -/
theorem c6_unknown_category_error_witness :
    ∃ e, create_feature_vector [0, 0, 0] [1, 1, 1] 1 2 3
      "smarch" "6c5ec2f26798484fb1031a7a31c08d73" = .error e :=
  c6_unknown_category_error [0, 0, 0] [1, 1, 1] 1 2 3
    "smarch" "6c5ec2f26798484fb1031a7a31c08d73" (Or.inl (by decide))

/-! ### scripts/clean_houses.py and scripts/dom_outliers.py

Both scripts stream a JSON-Lines file line by line. The JSON codec is
abstracted: `decode` models json.loads restricted to the flat objects
of this dataset (None on a parse failure) and `dumps` models
json.dumps; the control flow of the scripts is embedded exactly. -/

/-- A JSON value of a flat houses record: null, bool, number, string. -/
inductive JValue where
  | null : JValue
  | bool : Bool → JValue
  | num : ℚ → JValue
  | str : String → JValue
deriving DecidableEq

/-- A decoded JSON-Lines record. -/
abbrev JObj := List (String × JValue)

/-- The four counters reported by clean_houses.clean_file. -/
structure CleanStats where
  total : Nat
  removed_sold_no : Nat
  removed_missing_year : Nat
  rooms_fixed : Nat
deriving DecidableEq

/-- clean_houses lines 38-39: sold is a string and strips/lowers to
"no". -/
def soldIsNo (rec : JObj) : Bool :=
  match List.lookup "sold" rec with
  | some (.str s) => pyLower (pyStrip s) == "no"
  | _ => false

/-- clean_houses line 44: year absent, None, or the empty string. -/
def yearMissingOrEmpty (rec : JObj) : Bool :=
  match List.lookup "year" rec with
  | none => true
  | some .null => true
  | some (.str s) => s == ""
  | some _ => false

/-- clean_houses lines 49-51: replace an empty rooms string. -/
def fixRooms (rec : JObj) : JObj :=
  rec.map (fun kv => if kv.1 == "rooms" then ("rooms", JValue.str "0 rooms") else kv)

/-- clean_houses.clean_file over the lines of the input file: the kept
records in order, plus the counters. A line is stripped; blank lines
are not counted; a line that fails to decode is skipped but counted. -/
def clean_file (decode : String → Option JObj) : List String → List JObj × CleanStats
  | [] => ([], ⟨0, 0, 0, 0⟩)
  | line :: rest =>
    let raw := pyStrip line
    if raw == "" then clean_file decode rest
    else
      let out := clean_file decode rest
      match decode raw with
      | none => (out.1, { out.2 with total := out.2.total + 1 })
      | some rec =>
        if soldIsNo rec then
          (out.1, { out.2 with total := out.2.total + 1,
                               removed_sold_no := out.2.removed_sold_no + 1 })
        else if yearMissingOrEmpty rec then
          (out.1, { out.2 with total := out.2.total + 1,
                               removed_missing_year := out.2.removed_missing_year + 1 })
        else if List.lookup "rooms" rec == some (JValue.str "") then
          (fixRooms rec :: out.1, { out.2 with total := out.2.total + 1,
                                               rooms_fixed := out.2.rooms_fixed + 1 })
        else (rec :: out.1, { out.2 with total := out.2.total + 1 })

/-- Python float() applied to a JSON value: numbers pass through, bools
are 1/0, strings parse as decimal numerals (surrounding whitespace
allowed), None raises TypeError (modelled as no result). -/
def pyFloat : JValue → Option ℚ
  | .num q => some q
  | .bool b => some (if b then 1 else 0)
  | .str s => parseNumeric (pyStrip s)
  | .null => none

/-- dom_outliers.is_days_equal_100 applied to obj.get("days_on_marked"):
float(value) == 100.0, with TypeError/ValueError caught as False. -/
def is_days_equal_100 (v : Option JValue) : Bool :=
  match v with
  | none => false
  | some jv =>
    match pyFloat jv with
    | some q => q == 100
    | none => false

/-- The read/write loop of dom_outliers.main (lines 27-43): returns the
lines written to the temporary file, the total count, and the removed
count. A malformed line is written through; a record whose
days_on_marked equals 100 as a float is dropped; other records are
re-serialized. -/
def dom_filter (decode : String → Option JObj) (dumps : JObj → String) :
    List String → List String × Nat × Nat
  | [] => ([], 0, 0)
  | line :: rest =>
    let l := pyStrip line
    if l == "" then dom_filter decode dumps rest
    else
      let out := dom_filter decode dumps rest
      match decode l with
      | none => (l :: out.1, out.2.1 + 1, out.2.2)
      | some obj =>
        if is_days_equal_100 (List.lookup "days_on_marked" obj) then
          (out.1, out.2.1 + 1, out.2.2 + 1)
        else (dumps obj :: out.1, out.2.1 + 1, out.2.2)

/-- dom_outliers.main lines 45-52: when at least one record was removed
the temporary file atomically replaces the source (first component
true, second the new contents); otherwise the temporary file is deleted
and the source keeps its original lines (first component false). -/
def dom_main (decode : String → Option JObj) (dumps : JObj → String)
    (lines : List String) : Bool × List String :=
  let out := dom_filter decode dumps lines
  if 0 < out.2.2 then (true, out.1) else (false, lines)

/-- C9. A malformed line aborts nothing: the cleaning pipeline
(clean_houses.clean_file) skips it, counting it in total only, and
continues with the remaining lines; the outlier pass
(dom_outliers.main) writes the line through to its output unmodified
and continues. Stated for a canonical line (no surrounding whitespace,
as JSON-Lines lines are). -/
theorem c9_malformed_line (decode : String → Option JObj) (dumps : JObj → String)
    (line : String) (rest : List String)
    (h1 : pyStrip line = line) (h2 : line ≠ "") (h3 : decode line = none) :
    (clean_file decode (line :: rest)).1 = (clean_file decode rest).1 ∧
    (clean_file decode (line :: rest)).2.total = (clean_file decode rest).2.total + 1 ∧
    (clean_file decode (line :: rest)).2.removed_sold_no =
      (clean_file decode rest).2.removed_sold_no ∧
    (clean_file decode (line :: rest)).2.removed_missing_year =
      (clean_file decode rest).2.removed_missing_year ∧
    (clean_file decode (line :: rest)).2.rooms_fixed =
      (clean_file decode rest).2.rooms_fixed ∧
    (dom_filter decode dumps (line :: rest)).1 =
      line :: (dom_filter decode dumps rest).1 ∧
    (dom_filter decode dumps (line :: rest)).2.1 =
      (dom_filter decode dumps rest).2.1 + 1 ∧
    (dom_filter decode dumps (line :: rest)).2.2 =
      (dom_filter decode dumps rest).2.2 := by
  have hne : (line == "") = false := beq_eq_false_iff_ne.mpr h2
  constructor
  · simp [clean_file, h1, hne, h3]
  constructor
  · simp [clean_file, h1, hne, h3]
  constructor
  · simp [clean_file, h1, hne, h3]
  constructor
  · simp [clean_file, h1, hne, h3]
  constructor
  · simp [clean_file, h1, hne, h3]
  constructor
  · simp [dom_filter, h1, hne, h3]
  constructor
  · simp [dom_filter, h1, hne, h3]
  · simp [dom_filter, h1, hne, h3]

/-- Witness for C9 at a concrete malformed line and a decoder that
rejects it. -/
theorem c9_malformed_line_witness :
    ((clean_file (fun _ => none) ["not json"]).1 =
        (clean_file (fun _ => none) ([] : List String)).1 ∧
      (clean_file (fun _ => none) ["not json"]).2.total =
        (clean_file (fun _ => none) ([] : List String)).2.total + 1 ∧
      (clean_file (fun _ => none) ["not json"]).2.removed_sold_no =
        (clean_file (fun _ => none) ([] : List String)).2.removed_sold_no ∧
      (clean_file (fun _ => none) ["not json"]).2.removed_missing_year =
        (clean_file (fun _ => none) ([] : List String)).2.removed_missing_year ∧
      (clean_file (fun _ => none) ["not json"]).2.rooms_fixed =
        (clean_file (fun _ => none) ([] : List String)).2.rooms_fixed ∧
      (dom_filter (fun _ => none) (fun _ => "") ["not json"]).1 =
        "not json" :: (dom_filter (fun _ => none) (fun _ => "") ([] : List String)).1 ∧
      (dom_filter (fun _ => none) (fun _ => "") ["not json"]).2.1 =
        (dom_filter (fun _ => none) (fun _ => "") ([] : List String)).2.1 + 1 ∧
      (dom_filter (fun _ => none) (fun _ => "") ["not json"]).2.2 =
        (dom_filter (fun _ => none) (fun _ => "") ([] : List String)).2.2) :=
  c9_malformed_line (fun _ => none) (fun _ => "") "not json" []
    (by decide) (by decide) rfl

theorem dom_filter_removed_zero (decode : String → Option JObj) (dumps : JObj → String)
    (lines : List String)
    (h : ∀ line ∈ lines, ∀ obj, decode (pyStrip line) = some obj →
      is_days_equal_100 (List.lookup "days_on_marked" obj) = false) :
    (dom_filter decode dumps lines).2.2 = 0 := by
  induction lines with
  | nil => rfl
  | cons line rest ih =>
    have hrest := ih (fun l hl obj hobj => h l (List.mem_cons_of_mem line hl) obj hobj)
    by_cases hb : (pyStrip line == "") = true
    · simp [dom_filter, hb, hrest]
    · simp only [Bool.not_eq_true] at hb
      cases hdec : decode (pyStrip line) with
      | none => simp [dom_filter, hb, hdec, hrest]
      | some obj =>
        have h100 := h line (List.mem_cons_self line rest) obj hdec
        simp [dom_filter, hb, hdec, h100, hrest]

/-- C10. The outlier pass replaces the source file only when it removed
a record: when no parseable line carries days_on_marked equal to 100 in
the float sense, nothing is removed, the temporary file is deleted and
the source keeps its original lines. The float sense counts the string
"100" and the number 100, and never counts a missing, null, or
unparseable value. -/
theorem c10_outlier_replace (decode : String → Option JObj) (dumps : JObj → String)
    (lines : List String)
    (h : ∀ line ∈ lines, ∀ obj, decode (pyStrip line) = some obj →
      is_days_equal_100 (List.lookup "days_on_marked" obj) = false) :
    dom_main decode dumps lines = (false, lines) ∧
    is_days_equal_100 (some (JValue.str "100")) = true ∧
    is_days_equal_100 (some (JValue.num 100)) = true ∧
    is_days_equal_100 none = false ∧
    is_days_equal_100 (some (JValue.str "n/a")) = false ∧
    is_days_equal_100 (some JValue.null) = false := by
  refine ⟨?_, by decide, by decide, by decide, by decide, by decide⟩
  have hz := dom_filter_removed_zero decode dumps lines h
  simp [dom_main, hz]

/-- Witness for C10: a file whose records never carry a days_on_marked
of 100 is left unchanged. -/
theorem c10_outlier_replace_witness :
    (dom_main (fun s => if s = "rec1" then some [("days_on_marked", JValue.num 7)] else none)
        (fun _ => "rec1") ["rec1", "junk"] =
      (false, ["rec1", "junk"])) ∧
    is_days_equal_100 (some (JValue.str "100")) = true ∧
    is_days_equal_100 (some (JValue.num 100)) = true ∧
    is_days_equal_100 none = false ∧
    is_days_equal_100 (some (JValue.str "n/a")) = false ∧
    is_days_equal_100 (some JValue.null) = false :=
  c10_outlier_replace
    (fun s => if s = "rec1" then some [("days_on_marked", JValue.num 7)] else none)
    (fun _ => "rec1") ["rec1", "junk"]
    (by decide)
